import Mathlib

/-!
Shallow embedding of `plugin.py` from the qgis-mtr-example-plugin repository.

The plugin demonstrates multi-threaded rendering for a QGIS plugin layer:
a worker thread (`MtrExampleRenderer.render`) asynchronously invokes the
`request` slot of a GUI-thread object (`MtrExampleController`), then blocks
on a local `QEventLoop` while a 50 ms `QTimer` polls the
`renderingStopped()` flag of the render context.  The controller loads a
web page; when the load finishes, `pageFinished` paints the page's main
frame into a shared 400x400 `QImage` (or fills it gray if `cancelled` is
set) and emits the `finished` signal, which is connected to the worker
loop's `exit`.  After the loop exits, the worker draws `controller.img`
into its render context and returns `True`.

The embedding models one render pass.  The environment is a trace of
events delivered while the worker is in (or past) its wait:
`pageLoadFinished frame` is the GUI thread running `pageFinished` after the
asynchronous page load completed (with `frame` the abstract content of the
page's main frame), and `timerTick stopped` is one firing of the 50 ms
cancellation timer observing `renderingStopped() = stopped`.  The state
records the controller, whether `finished` was emitted, how (if at all)
the worker's event loop was exited, and a snapshot of the shared image at
the moment the worker's `drawImage` call reads it.
-/

/-- Color constants of the Qt namespace; the plugin only uses `Qt.gray`
(`plugin.py` line 64). -/
inductive QtColor where
  | gray
  | other (n : Nat)
deriving DecidableEq, Repr

/-- Pixel formats of `QImage`; the plugin uses `QImage.Format_ARGB32`
(`plugin.py` line 43). -/
inductive QImageFormat where
  | Format_ARGB32
  | Format_RGB32
deriving DecidableEq, Repr

/-- Abstract pixel contents of a `QImage`: a freshly constructed image is
uninitialized; `fill` makes it a solid color; rendering the web page's
main frame into it makes it that frame's content (identified by an
abstract `Nat`). -/
inductive PixelData where
  | uninit
  | rendered (frame : Nat)
  | filled (color : QtColor)
deriving DecidableEq, Repr

/-- Model of a `QImage`: its pixel dimensions, pixel format, and abstract
contents. -/
structure QImage where
  width : Nat
  height : Nat
  format : QImageFormat
  content : PixelData
deriving DecidableEq, Repr

/-- Constructing `QImage(size, format)` (`plugin.py` line 43): the new
image has the given size and format and uninitialized contents. -/
def QImage.make (size : Nat × Nat) (fmt : QImageFormat) : QImage :=
  { width := size.1, height := size.2, format := fmt, content := PixelData.uninit }

/-- Model of `img.fill(color)` (`plugin.py` line 64): the contents become
the solid color; the size and format are unchanged. -/
def QImage.fill (img : QImage) (c : QtColor) : QImage :=
  { img with content := PixelData.filled c }

/-- Model of `painter = QPainter(self.img); self.page.mainFrame().render(painter);
painter.end()` (`plugin.py` lines 60-62): the image's contents become the
rendered main frame; the size and format are unchanged. -/
def QImage.paintMainFrame (img : QImage) (frame : Nat) : QImage :=
  { img with content := PixelData.rendered frame }

/-- State of an `MtrExampleController` (`plugin.py` lines 30-66): the
viewport size, the shared output image, the `cancelled` attribute
(`none` models the Python attribute not having been assigned yet, since
`self.cancelled` is first created inside `request`), and whether
`page.mainFrame().load(url)` has been called. -/
structure MtrExampleController where
  viewportSize : Nat × Nat
  img : QImage
  cancelled : Option Bool
  loadRequested : Bool
deriving DecidableEq, Repr

/-- The controller constructor (`plugin.py` lines 39-47):
`viewportSize = QSize(400, 400)`, `img = QImage(viewportSize, Format_ARGB32)`;
no `cancelled` attribute exists yet and no load has been requested. -/
def MtrExampleController.init : MtrExampleController :=
  { viewportSize := (400, 400)
  , img := QImage.make (400, 400) QImageFormat.Format_ARGB32
  , cancelled := none
  , loadRequested := false }

/-- The `request` slot (`plugin.py` lines 49-55), run on the GUI thread:
sets `self.cancelled = False` and starts the asynchronous page load. -/
def MtrExampleController.request (c : MtrExampleController) : MtrExampleController :=
  { c with cancelled := some false, loadRequested := true }

/-- The `pageFinished` handler (`plugin.py` lines 57-66), run on the GUI
thread when the page load completes: if `not self.cancelled`, render the
page's main frame into `self.img`; else fill `self.img` with `Qt.gray`.
Reading `self.cancelled` before `request` assigned it would raise an
`AttributeError`, modelled by `none`.  (The subsequent
`self.finished.emit()` is modelled in the system step `processEvent`.) -/
def MtrExampleController.pageFinished (c : MtrExampleController) (frame : Nat) :
    Option MtrExampleController :=
  match c.cancelled with
  | none => none
  | some cv =>
      if !cv then
        some { c with img := c.img.paintMainFrame frame }
      else
        some { c with img := c.img.fill QtColor.gray }

/-- How the worker's blocking event loop (`self.loop.exec_()` in
`plugin.py` line 94) was exited: by the controller's `finished` signal
(connected to `loop.exit` on line 93) or by the cancellation poll
`onTimeout` calling `loop.exit` (line 106). -/
inductive ExitCause where
  | finishedSignal
  | cancelPoll
deriving DecidableEq, Repr

/-- The image snapshot read by the worker's `painter.drawImage(0, 0,
self.controller.img)` call (`plugin.py` line 99) right after the loop
exits, together with whether the controller's `finished` signal had been
emitted by that moment. -/
structure DrawEvent where
  image : QImage
  finishedWasEmitted : Bool
deriving DecidableEq, Repr

/-- An event of one render pass, as seen by the two threads:
`pageLoadFinished frame` is the `loadFinished` signal of the `QWebPage`
firing on the GUI thread (running `pageFinished`, `plugin.py` line 47),
with `frame` the abstract content of the loaded main frame;
`timerTick stopped` is one firing of the worker-side 50 ms timer
(running `onTimeout`, `plugin.py` line 88), with `stopped` the value of
`self.context.renderingStopped()` observed at that tick. -/
inductive Event where
  | pageLoadFinished (frame : Nat)
  | timerTick (stopped : Bool)
deriving DecidableEq, Repr

/-- The whole-system state of one render pass: the controller (owned by
the GUI thread), whether `finished` has been emitted, how the worker's
event loop was exited (`none` while it is still blocking), and the
snapshot taken when the worker's `drawImage` read the shared image
(`none` while the worker is still blocking). -/
structure SysState where
  ctrl : MtrExampleController
  finishedEmitted : Bool
  exited : Option ExitCause
  draw : Option DrawEvent
deriving DecidableEq, Repr

/-- One event of the render pass.

`pageLoadFinished`: the GUI thread runs `pageFinished` (this happens
whether or not the worker already left its wait: nothing in `onTimeout`
or `loop.exit` touches the page load, `plugin.py` lines 102-106), which
updates the image and then emits `finished`.  The `finished` signal is
queued to the worker's loop and exits it if it is still running; the
worker then reads `controller.img`, which at that point holds the image
`pageFinished` just produced.

`timerTick`: the worker loop runs `onTimeout` (`plugin.py` lines
102-106): if `renderingStopped()` it calls `self.loop.exit()`, ending the
wait; the worker then reads `controller.img` as it currently is, with the
`finished` signal possibly not yet emitted.  A tick after the loop has
already exited is a no-op (`loop.exit` on a loop that is not running does
nothing), as is a tick that observes `renderingStopped() = False`. -/
def processEvent (s : SysState) (e : Event) : Option SysState :=
  match e with
  | Event.pageLoadFinished frame =>
      match s.ctrl.pageFinished frame with
      | none => none
      | some c2 =>
          if s.exited.isNone then
            some { ctrl := c2
                 , finishedEmitted := true
                 , exited := some ExitCause.finishedSignal
                 , draw := some { image := c2.img, finishedWasEmitted := true } }
          else
            some { s with ctrl := c2, finishedEmitted := true }
  | Event.timerTick stopped =>
      if s.exited.isNone && stopped then
        some { s with exited := some ExitCause.cancelPoll
                    , draw := some { image := s.ctrl.img
                                   , finishedWasEmitted := s.finishedEmitted } }
      else
        some s

/-- Process a trace of events in order. -/
def runEvents (s : SysState) : List Event → Option SysState
  | [] => some s
  | e :: es =>
      match processEvent s e with
      | none => none
      | some s2 => runEvents s2 es

/-- One execution of `MtrExampleRenderer.render` (`plugin.py` lines
79-100) under the event trace `events`: the renderer's constructor built
`MtrExampleController(None)`; `render` posts `request` to the GUI thread
(`QMetaObject.invokeMethod`, line 83), which the GUI thread processes
before the page load it starts can finish; then the worker blocks and the
trace of load-finished and timer events unfolds. -/
def MtrExampleRenderer.render (events : List Event) : Option SysState :=
  runEvents
    { ctrl := MtrExampleController.init.request
    , finishedEmitted := false
    , exited := none
    , draw := none }
    events

/-- The value returned by `MtrExampleRenderer.render`: it returns `True`
(`plugin.py` line 100) once its wait has ended; while the loop has not
been exited, `render` has not returned (`none`). -/
def renderReturn (s : SysState) : Option Bool :=
  if s.exited.isSome then some true else none

/-- The statements of the worker-thread body of `MtrExampleRenderer.render`
(`plugin.py` lines 79-100), as straight-line code (it has no branches or
loops). -/
inductive WorkerAction where
  | writeStderr (msg : String)
  | invokeRequest
  | timerSetInterval (ms : Nat)
  | connectTimeoutToOnTimeout
  | timerStart
  | createEventLoop
  | connectFinishedToLoopExit
  | loopExec
  | drawImage (x y : Nat)
  | returnTrue
deriving DecidableEq, Repr

/-- The statement sequence of `MtrExampleRenderer.render` (`plugin.py`
lines 82-100), in source order. -/
def renderBody : List WorkerAction :=
  [ WorkerAction.writeStderr "[WORKER THREAD] Calling request() asynchronously\n"
  , WorkerAction.invokeRequest
  , WorkerAction.timerSetInterval 50
  , WorkerAction.connectTimeoutToOnTimeout
  , WorkerAction.timerStart
  , WorkerAction.writeStderr "[WORKER THREAD] Waiting for the async request to complete\n"
  , WorkerAction.createEventLoop
  , WorkerAction.connectFinishedToLoopExit
  , WorkerAction.loopExec
  , WorkerAction.writeStderr "[WORKER THREAD] Async request finished\n"
  , WorkerAction.drawImage 0 0
  , WorkerAction.returnTrue ]

/-- An event is a trigger when processing it from a still-blocking wait
ends the wait: a page-load completion (whose `pageFinished` emits
`finished`, exiting the loop) or a timer tick observing
`renderingStopped() = True`. -/
def isTrigger : Event → Bool
  | Event.pageLoadFinished _ => true
  | Event.timerTick stopped => stopped

/-- The GUI thread's own view of one event: `pageFinished` runs for every
completed page load, and timer ticks (worker-side cancellation polling)
never touch the controller. -/
def guiStep (c : MtrExampleController) : Event → Option MtrExampleController
  | Event.pageLoadFinished frame => c.pageFinished frame
  | Event.timerTick _ => some c

/-- The GUI thread's handlers applied to a whole trace. -/
def guiRun (c : MtrExampleController) : List Event → Option MtrExampleController
  | [] => some c
  | e :: es =>
      match guiStep c e with
      | none => none
      | some c2 => guiRun c2 es

/-- The initial system state of a render pass: `request` has been posted
and processed by the GUI thread, the worker is entering its wait, nothing
has been drawn. -/
def renderInit : SysState :=
  { ctrl := MtrExampleController.init.request
  , finishedEmitted := false
  , exited := none
  , draw := none }

theorem render_eq_runEvents (events : List Event) :
    MtrExampleRenderer.render events = runEvents renderInit events := rfl

theorem pageFinished_paint {c : MtrExampleController} (hc : c.cancelled = some false)
    (f : Nat) :
    c.pageFinished f = some { c with img := c.img.paintMainFrame f } := by
  simp [MtrExampleController.pageFinished, hc]

theorem processEvent_pageLoadFinished {s : SysState} {f : Nat}
    {c2 : MtrExampleController} (hp : s.ctrl.pageFinished f = some c2) :
    processEvent s (Event.pageLoadFinished f)
      = if s.exited.isNone then
          some { ctrl := c2
               , finishedEmitted := true
               , exited := some ExitCause.finishedSignal
               , draw := some { image := c2.img, finishedWasEmitted := true } }
        else
          some { s with ctrl := c2, finishedEmitted := true } := by
  simp only [processEvent, hp]

theorem processEvent_timerTick (s : SysState) (b : Bool) :
    processEvent s (Event.timerTick b)
      = if s.exited.isNone && b then
          some { s with exited := some ExitCause.cancelPoll
                      , draw := some { image := s.ctrl.img
                                     , finishedWasEmitted := s.finishedEmitted } }
        else
          some s := rfl

/-- Execution invariant of a render pass, established by `request` and
preserved by every event: the `cancelled` flag stays `False` (nothing in
the program ever sets it to `True`), the shared image keeps its 400x400
size and never holds the gray fill, the image is read exactly when the
wait has ended, and a wait ended by the `finished` signal read the
freshly rendered page with the signal already emitted. -/
def RenderInv (s : SysState) : Prop :=
  s.ctrl.cancelled = some false
  ∧ s.ctrl.img.width = 400
  ∧ s.ctrl.img.height = 400
  ∧ s.ctrl.img.content ≠ PixelData.filled QtColor.gray
  ∧ (s.draw.isSome ↔ s.exited.isSome)
  ∧ (∀ d, s.draw = some d →
       d.image.width = 400 ∧ d.image.height = 400
       ∧ d.image.content ≠ PixelData.filled QtColor.gray)
  ∧ (s.exited = some ExitCause.finishedSignal →
       ∃ f d, s.draw = some d ∧ d.image.content = PixelData.rendered f
         ∧ d.finishedWasEmitted = true)

theorem renderInv_renderInit : RenderInv renderInit := by
  refine ⟨rfl, rfl, rfl, by decide, Iff.rfl, ?_, ?_⟩
  · intro d hd
    simp [renderInit] at hd
  · intro hx
    simp [renderInit] at hx

theorem processEvent_inv {s s2 : SysState} {e : Event}
    (hs : RenderInv s) (h : processEvent s e = some s2) : RenderInv s2 := by
  obtain ⟨hc, hw, hh, hg, hde, hdim, hfs⟩ := hs
  cases e with
  | pageLoadFinished f =>
      rw [processEvent_pageLoadFinished (pageFinished_paint hc f)] at h
      split at h
      · simp only [Option.some.injEq] at h
        subst h
        refine ⟨hc, hw, hh, ?_, by simp, ?_, ?_⟩
        · simp [QImage.paintMainFrame]
        · intro d hd
          simp only [Option.some.injEq] at hd
          subst hd
          simp [QImage.paintMainFrame, hw, hh]
        · intro _
          exact ⟨f, _, rfl, by simp [QImage.paintMainFrame], rfl⟩
      · simp only [Option.some.injEq] at h
        subst h
        refine ⟨hc, hw, hh, ?_, hde, hdim, hfs⟩
        simp [QImage.paintMainFrame]
  | timerTick b =>
      rw [processEvent_timerTick] at h
      split at h
      · simp only [Option.some.injEq] at h
        subst h
        refine ⟨hc, hw, hh, hg, by simp, ?_, ?_⟩
        · intro d hd
          simp only [Option.some.injEq] at hd
          subst hd
          exact ⟨hw, hh, hg⟩
        · intro hx
          simp at hx
      · simp only [Option.some.injEq] at h
        subst h
        exact ⟨hc, hw, hh, hg, hde, hdim, hfs⟩

theorem runEvents_inv (P : SysState → Prop)
    (hstep : ∀ s e s2, P s → processEvent s e = some s2 → P s2) :
    ∀ (es : List Event) (s s2 : SysState),
      P s → runEvents s es = some s2 → P s2
  | [], s, s2, hP, h => by
      simp [runEvents] at h
      exact h ▸ hP
  | e :: es, s, s2, hP, h => by
      rw [runEvents] at h
      rcases hpe : processEvent s e with _ | s1
      · rw [hpe] at h
        exact Option.noConfusion h
      · rw [hpe] at h
        exact runEvents_inv P hstep es s1 s2 (hstep s e s1 hP hpe) h

theorem render_inv {events : List Event} {s : SysState}
    (h : MtrExampleRenderer.render events = some s) : RenderInv s :=
  runEvents_inv RenderInv (fun _ _ _ hP hpe => processEvent_inv hP hpe)
    events renderInit s renderInv_renderInit h

theorem processEvent_exited_iff {s s2 : SysState} {e : Event}
    (hc : s.ctrl.cancelled = some false) (h : processEvent s e = some s2) :
    (s2.exited.isSome ↔ (s.exited.isSome ∨ isTrigger e = true)) := by
  cases e with
  | pageLoadFinished f =>
      rw [processEvent_pageLoadFinished (pageFinished_paint hc f)] at h
      rcases hex : s.exited with _ | ec
      · rw [hex] at h
        simp at h
        subst h
        simp [isTrigger, hex]
      · rw [hex] at h
        simp at h
        subst h
        simp [isTrigger, hex]
  | timerTick b =>
      rw [processEvent_timerTick] at h
      rcases hex : s.exited with _ | ec
      · rw [hex] at h
        cases b
        · simp at h
          subst h
          simp [isTrigger, hex]
        · simp at h
          subst h
          simp [isTrigger, hex]
      · rw [hex] at h
        simp at h
        subst h
        simp [isTrigger, hex]

theorem runEvents_exited_iff :
    ∀ (es : List Event) (s s2 : SysState), RenderInv s →
      runEvents s es = some s2 →
      (s2.exited.isSome ↔ (s.exited.isSome ∨ ∃ e ∈ es, isTrigger e = true))
  | [], s, s2, _, h => by
      simp [runEvents] at h
      subst h
      simp
  | e :: es, s, s2, hInv, h => by
      rw [runEvents] at h
      rcases hpe : processEvent s e with _ | s1
      · rw [hpe] at h
        exact Option.noConfusion h
      · rw [hpe] at h
        have hstep := processEvent_exited_iff hInv.1 hpe
        have hrest := runEvents_exited_iff es s1 s2 (processEvent_inv hInv hpe) h
        rw [hrest, hstep]
        constructor
        · intro hx
          rcases hx with (hx | hx) | hx
          · exact Or.inl hx
          · exact Or.inr ⟨e, List.mem_cons_self e es, hx⟩
          · rcases hx with ⟨e2, he2, ht2⟩
            exact Or.inr ⟨e2, List.mem_cons_of_mem e he2, ht2⟩
        · intro hx
          rcases hx with hx | ⟨e2, he2, ht2⟩
          · exact Or.inl (Or.inl hx)
          · rcases List.mem_cons.mp he2 with rfl | he2
            · exact Or.inl (Or.inr ht2)
            · exact Or.inr ⟨e2, he2, ht2⟩

theorem processEvent_ctrl {s s2 : SysState} {e : Event}
    (hc : s.ctrl.cancelled = some false) (h : processEvent s e = some s2) :
    guiStep s.ctrl e = some s2.ctrl := by
  cases e with
  | pageLoadFinished f =>
      rw [processEvent_pageLoadFinished (pageFinished_paint hc f)] at h
      rcases hex : s.exited with _ | ec
      · rw [hex] at h
        simp at h
        subst h
        simp [guiStep, pageFinished_paint hc f]
      · rw [hex] at h
        simp at h
        subst h
        simp [guiStep, pageFinished_paint hc f]
  | timerTick b =>
      rw [processEvent_timerTick] at h
      rcases hex : s.exited with _ | ec
      · rw [hex] at h
        cases b
        · simp at h
          subst h
          simp [guiStep]
        · simp at h
          subst h
          simp [guiStep]
      · rw [hex] at h
        simp at h
        subst h
        simp [guiStep]

theorem runEvents_ctrl :
    ∀ (es : List Event) (s s2 : SysState), RenderInv s →
      runEvents s es = some s2 → guiRun s.ctrl es = some s2.ctrl
  | [], s, s2, _, h => by
      simp [runEvents] at h
      subst h
      simp [guiRun]
  | e :: es, s, s2, hInv, h => by
      rw [runEvents] at h
      rcases hpe : processEvent s e with _ | s1
      · rw [hpe] at h
        exact Option.noConfusion h
      · rw [hpe] at h
        rw [guiRun, processEvent_ctrl hInv.1 hpe]
        exact runEvents_ctrl es s1 s2 (processEvent_inv hInv hpe) h

/-- The final state of a render pass cancelled before the page load
completed: trace `[timerTick true]`. -/
def cancelledPassState : SysState :=
  { ctrl := MtrExampleController.init.request
  , finishedEmitted := false
  , exited := some ExitCause.cancelPoll
  , draw := some { image := QImage.make (400, 400) QImageFormat.Format_ARGB32
                 , finishedWasEmitted := false } }

/-- The final state of a cancelled render pass whose page load completed
afterwards: trace `[timerTick true, pageLoadFinished 7]`.  The worker drew
the still-uninitialized image; the GUI thread later painted the page into
the controller's image, after the draw. -/
def cancelledThenLoadedState : SysState :=
  { ctrl := { viewportSize := (400, 400)
            , img := { width := 400
                     , height := 400
                     , format := QImageFormat.Format_ARGB32
                     , content := PixelData.rendered 7 }
            , cancelled := some false
            , loadRequested := true }
  , finishedEmitted := true
  , exited := some ExitCause.cancelPoll
  , draw := some { image := QImage.make (400, 400) QImageFormat.Format_ARGB32
                 , finishedWasEmitted := false } }

/-- The 400x400 image holding the rendered main frame of page content
`0`. -/
def renderedImg0 : QImage :=
  { width := 400, height := 400
  , format := QImageFormat.Format_ARGB32
  , content := PixelData.rendered 0 }

/-- The final state of a render pass completed without cancellation:
trace `[pageLoadFinished 0]`. -/
def completedPassState : SysState :=
  { ctrl := { viewportSize := (400, 400)
            , img := renderedImg0
            , cancelled := some false
            , loadRequested := true }
  , finishedEmitted := true
  , exited := some ExitCause.finishedSignal
  , draw := some { image := renderedImg0, finishedWasEmitted := true } }

/-- The final state of trace `[timerTick true, pageLoadFinished 3]`, used
to exhibit that `pageFinished` still runs after a cancellation. -/
def cancelledThenLoaded3State : SysState :=
  { ctrl := { viewportSize := (400, 400)
            , img := { width := 400
                     , height := 400
                     , format := QImageFormat.Format_ARGB32
                     , content := PixelData.rendered 3 }
            , cancelled := some false
            , loadRequested := true }
  , finishedEmitted := true
  , exited := some ExitCause.cancelPoll
  , draw := some { image := QImage.make (400, 400) QImageFormat.Format_ARGB32
                 , finishedWasEmitted := false } }

/-- C1: the claim says a cancelled render always paints an image entirely
filled with the neutral gray sentinel.  The code does not do this: on the
render pass where `renderingStopped()` is observed before the page load
completes (and the load completes afterwards), the worker draws the image
still holding its uninitialized construction-time contents — not the gray
fill `PixelData.filled QtColor.gray` that the dead `else` branch of
`pageFinished` would produce. -/
theorem c1_cancelled_render_draws_unfilled_image :
    MtrExampleRenderer.render [Event.timerTick true, Event.pageLoadFinished 7]
      = some cancelledThenLoadedState
    ∧ cancelledThenLoadedState.draw
        = some { image := QImage.make (400, 400) QImageFormat.Format_ARGB32
               , finishedWasEmitted := false }
    ∧ (QImage.make (400, 400) QImageFormat.Format_ARGB32).content
        ≠ PixelData.filled QtColor.gray := by
  refine ⟨by decide, by decide, by decide⟩

/-- C2 counterexample: on the cancellation path the worker reads the
shared image before the `finished` signal has fired: on the trace
`[timerTick true]` the draw snapshot exists and records that `finished`
had not yet been emitted (and indeed it never fired during this trace),
refuting the claim that no execution path reads the image before the
signal. -/
theorem c2_read_before_signal_on_cancel :
    (MtrExampleRenderer.render [Event.timerTick true]).map
        (fun s => (s.draw.map (fun d => d.finishedWasEmitted), s.finishedEmitted))
      = some (some false, false) := by decide

/-- C2 (amended): whenever the worker's wait is ended by the controller's
`finished` signal, the snapshot read by `drawImage` was taken after the
signal was emitted; only the cancellation path may read the image before
the signal fires. -/
theorem c2_completed_pass_reads_after_signal :
    ∀ (events : List Event) (s : SysState),
      MtrExampleRenderer.render events = some s →
      s.exited = some ExitCause.finishedSignal →
      ∀ d, s.draw = some d → d.finishedWasEmitted = true := by
  intro events s h hx d hd
  obtain ⟨f, d2, hd2, _, hem⟩ := (render_inv h).2.2.2.2.2.2 hx
  rw [hd] at hd2
  injection hd2 with h2
  subst h2
  exact hem

/-- C2 witness: the amended theorem applied to the completed pass
`[pageLoadFinished 0]`. -/
theorem c2_completed_pass_reads_after_signal_witness :
    MtrExampleRenderer.render [Event.pageLoadFinished 0] = some completedPassState
    ∧ completedPassState.draw
        = some { image := renderedImg0, finishedWasEmitted := true }
    ∧ ({ image := renderedImg0, finishedWasEmitted := true } : DrawEvent).finishedWasEmitted
        = true :=
  ⟨by decide, by decide,
   c2_completed_pass_reads_after_signal [Event.pageLoadFinished 0]
     completedPassState (by decide) (by decide)
     { image := renderedImg0, finishedWasEmitted := true } (by decide)⟩

/-- C3: the worker's wait terminates exactly when the trace contains a
page-load completion (ending the wait via the `finished` signal) or a
50 ms poll tick observing that rendering was stopped; it is exited by no
other means, and with neither event it does not end. -/
theorem c3_wait_terminates_iff_trigger :
    ∀ (events : List Event) (s : SysState),
      MtrExampleRenderer.render events = some s →
      (s.exited.isSome ↔ ∃ e ∈ events, isTrigger e = true) := by
  intro events s h
  have hiff := runEvents_exited_iff events renderInit s renderInv_renderInit h
  simpa [renderInit] using hiff

/-- C3 witness: the termination criterion applied to a cancellation
trace. -/
theorem c3_wait_terminates_witness :
    MtrExampleRenderer.render [Event.timerTick true] = some cancelledPassState
    ∧ (cancelledPassState.exited.isSome
        ↔ ∃ e ∈ [Event.timerTick true], isTrigger e = true) :=
  ⟨by decide,
   c3_wait_terminates_iff_trigger [Event.timerTick true] cancelledPassState (by decide)⟩

/-- C4: a render pass completed without cancellation hands the worker the
loaded page content: when the wait ended via the `finished` signal, the
drawn snapshot is the 400x400 image holding the rendered main frame, and
`pageFinished` had painted it and emitted the signal before the worker
read it. -/
theorem c4_completed_draw_reflects_page :
    ∀ (events : List Event) (s : SysState),
      MtrExampleRenderer.render events = some s →
      s.exited = some ExitCause.finishedSignal →
      ∃ f d, s.draw = some d
        ∧ d.image.content = PixelData.rendered f
        ∧ d.image.width = 400 ∧ d.image.height = 400
        ∧ d.finishedWasEmitted = true := by
  intro events s h hx
  have hInv := render_inv h
  obtain ⟨f, d, hd, hcont, hem⟩ := hInv.2.2.2.2.2.2 hx
  obtain ⟨hw, hh, _⟩ := hInv.2.2.2.2.2.1 d hd
  exact ⟨f, d, hd, hcont, hw, hh, hem⟩

/-- C4 witness: the theorem applied to the completed pass
`[pageLoadFinished 0]`. -/
theorem c4_completed_draw_witness :
    MtrExampleRenderer.render [Event.pageLoadFinished 0] = some completedPassState
    ∧ ∃ f d, completedPassState.draw = some d
        ∧ d.image.content = PixelData.rendered f
        ∧ d.image.width = 400 ∧ d.image.height = 400
        ∧ d.finishedWasEmitted = true :=
  ⟨by decide,
   c4_completed_draw_reflects_page [Event.pageLoadFinished 0]
     completedPassState (by decide) (by decide)⟩

/-- C5: cancellation never interrupts the GUI-thread operation: over any
trace, the controller evolves exactly as the GUI thread's handlers
prescribe (`pageFinished` runs for every completed page load, in order),
regardless of whether and how the worker's wait was short-circuited; the
cancellation poll only exits the worker's loop and never touches the
controller. -/
theorem c5_gui_operation_runs_to_completion :
    ∀ (events : List Event) (s : SysState),
      MtrExampleRenderer.render events = some s →
      guiRun MtrExampleController.init.request events = some s.ctrl := by
  intro events s h
  exact runEvents_ctrl events renderInit s renderInv_renderInit h

/-- C5 witness: on a trace where cancellation fires first,
`pageFinished` still runs afterwards and paints the page into the
controller's image. -/
theorem c5_gui_operation_witness :
    MtrExampleRenderer.render [Event.timerTick true, Event.pageLoadFinished 3]
      = some cancelledThenLoaded3State
    ∧ guiRun MtrExampleController.init.request
        [Event.timerTick true, Event.pageLoadFinished 3]
      = some cancelledThenLoaded3State.ctrl :=
  ⟨by decide,
   c5_gui_operation_runs_to_completion
     [Event.timerTick true, Event.pageLoadFinished 3]
     cancelledThenLoaded3State (by decide)⟩

/-- C6: a single call to `render` issues exactly one asynchronous
`request` invocation, and it is issued before the worker enters its
blocking wait; the statement sequence contains no queuing or retry. -/
theorem c6_single_request_per_render :
    renderBody.count WorkerAction.invokeRequest = 1
    ∧ renderBody.indexOf WorkerAction.invokeRequest
        < renderBody.indexOf WorkerAction.loopExec := by decide

/-- C7: the cancellation-poll timer is configured with an interval of
exactly 50 ms — the only `setInterval` call in `render` — and both the
configuration and the timer start precede the worker entering its wait. -/
theorem c7_timer_interval_50ms :
    renderBody.filter (fun a =>
        match a with
        | WorkerAction.timerSetInterval _ => true
        | _ => false)
      = [WorkerAction.timerSetInterval 50]
    ∧ renderBody.indexOf (WorkerAction.timerSetInterval 50)
        < renderBody.indexOf WorkerAction.loopExec
    ∧ renderBody.indexOf WorkerAction.timerStart
        < renderBody.indexOf WorkerAction.loopExec := by decide

/-- C8: the shared output image is a fixed 400x400 canvas: it is
allocated 400x400 at controller construction, and in every state
reachable in a render pass both the controller's image and the snapshot
the worker draws keep that size — no operation resizes it. -/
theorem c8_image_fixed_400x400 :
    MtrExampleController.init.img.width = 400
    ∧ MtrExampleController.init.img.height = 400
    ∧ ∀ (events : List Event) (s : SysState),
        MtrExampleRenderer.render events = some s →
        s.ctrl.img.width = 400 ∧ s.ctrl.img.height = 400
        ∧ ∀ d, s.draw = some d → d.image.width = 400 ∧ d.image.height = 400 := by
  refine ⟨rfl, rfl, ?_⟩
  intro events s h
  have hInv := render_inv h
  refine ⟨hInv.2.1, hInv.2.2.1, ?_⟩
  intro d hd
  obtain ⟨hw, hh, _⟩ := hInv.2.2.2.2.2.1 d hd
  exact ⟨hw, hh⟩

/-- C8 witness: the size theorem applied to the freshly started pass. -/
theorem c8_image_fixed_witness :
    MtrExampleRenderer.render [] = some renderInit
    ∧ renderInit.ctrl.img.width = 400 ∧ renderInit.ctrl.img.height = 400 :=
  ⟨by decide,
   (c8_image_fixed_400x400.2.2 [] renderInit (by decide)).1,
   (c8_image_fixed_400x400.2.2 [] renderInit (by decide)).2.1⟩

/-- C9: `request` sets `cancelled` to `False` at its start and nothing in
the program ever sets it to `True`, so in every state reachable in a
render pass the flag is still `False` and `pageFinished` always takes the
painting branch: the gray-fill `else` branch is unreachable in every
execution that starts with `request`. -/
theorem c9_gray_branch_unreachable :
    ∀ (events : List Event) (s : SysState),
      MtrExampleRenderer.render events = some s →
      s.ctrl.cancelled = some false
      ∧ ∀ f, s.ctrl.pageFinished f
          = some { s.ctrl with img := s.ctrl.img.paintMainFrame f } := by
  intro events s h
  have hc := (render_inv h).1
  exact ⟨hc, fun f => pageFinished_paint hc f⟩

/-- C9 witness: the flag invariant applied to a cancellation trace. -/
theorem c9_gray_branch_witness :
    MtrExampleRenderer.render [Event.timerTick true] = some cancelledPassState
    ∧ cancelledPassState.ctrl.cancelled = some false :=
  ⟨by decide,
   (c9_gray_branch_unreachable [Event.timerTick true] cancelledPassState (by decide)).1⟩

/-- C10: `render` returns `True` on every execution path: once its wait
has ended — whether by completion or by cancellation — the value it
returns is `True` and never `False`, so the return value does not
distinguish a cancelled pass from a completed one. -/
theorem c10_render_always_returns_true :
    ∀ (events : List Event) (s : SysState),
      MtrExampleRenderer.render events = some s →
      (s.exited.isSome → renderReturn s = some true)
      ∧ ∀ b, renderReturn s = some b → b = true := by
  intro events s _
  constructor
  · intro hx
    simp [renderReturn, hx]
  · intro b hb
    by_cases hx : s.exited.isSome
    · simp [renderReturn, hx] at hb
      exact hb
    · simp [renderReturn, hx] at hb

/-- C10 witness: a cancelled pass still returns `True`. -/
theorem c10_render_returns_true_witness :
    MtrExampleRenderer.render [Event.timerTick true] = some cancelledPassState
    ∧ renderReturn cancelledPassState = some true :=
  ⟨by decide,
   (c10_render_always_returns_true [Event.timerTick true] cancelledPassState
     (by decide)).1 (by decide)⟩
